import Mathlib

/-!
Verification of the blitztime ts-wrapper clock core.

Shallow embedding conventions:
- JavaScript numbers are modelled as exact rationals; all arithmetic the
  settled claims depend on (comparisons, addition, subtraction, halving an
  integer turn counter, scaling by 1000) is exact in binary64 on the value
  ranges involved, except where a claim is decided by rounding, in which
  case an explicit binary64 rounding model is used (see the section on
  IEEE-754 semantics for serialization below).
- luxon Duration values are held in milliseconds, DateTime values as
  milliseconds since the epoch.
- Thrown JavaScript errors become Except values.
- The back-reference from a TimerSide to its owning Timer is modelled by
  passing the Timer as an explicit argument to the methods, per the
  read-only-borrow discipline the snapshot model prescribes.
-/

namespace Blitztime

/-- JavaScript numbers, modelled as exact rationals. -/
abbrev JsNum := ℚ

/-- types.ts loadDuration: Duration.fromMillis(seconds * 1000), held in ms. -/
def loadDuration (seconds : JsNum) : JsNum := seconds * 1000

/-- types.ts StageSettings: one time-control stage. Durations in ms. -/
structure StageSettings where
  startTurn : JsNum
  fixedTimePerTurn : JsNum
  incrementPerTurn : JsNum
  initialTime : JsNum
deriving Repr, DecidableEq

/-- Wire form of one stage, field names as on the wire (all fields present). -/
structure RawStage where
  start_turn : JsNum
  seconds_fixed_per_turn : JsNum
  seconds_incremement_per_turn : JsNum
  initial_seconds : JsNum
deriving Repr, DecidableEq

/-- types.ts StageSettings.load. -/
def StageSettings.load (data : RawStage) : StageSettings :=
  ⟨data.start_turn,
   loadDuration data.seconds_fixed_per_turn,
   loadDuration data.seconds_incremement_per_turn,
   loadDuration data.initial_seconds⟩

/-- types.ts StageSettings.dump: durations re-expressed in seconds. -/
def StageSettings.dump (s : StageSettings) : RawStage :=
  ⟨s.startTurn,
   s.fixedTimePerTurn / 1000,
   s.incrementPerTurn / 1000,
   s.initialTime / 1000⟩

/-- types.ts TimerSide stored fields (the Timer back-reference is passed to
the methods explicitly). -/
structure TimerSide where
  isTurn : Bool
  totalTimeLastTurn : JsNum
  connected : Bool
deriving Repr, DecidableEq

/-- The error thrown by Timer.stageSettings when no stage matches. -/
inductive StageError
  | noFirstStage
deriving Repr, DecidableEq

/-- types.ts Timer stored fields (well-formed snapshot state). -/
structure Timer where
  id : JsNum
  turnNumber : JsNum
  turnStartedAt : Option JsNum
  startedAt : Option JsNum
  hasEnded : Bool
  endReporter : Option JsNum
  home : Option TimerSide
  away : Option TimerSide
  settings : List StageSettings
  observers : JsNum
  managed : Bool
deriving Repr, DecidableEq

/-- The local value computed at the top of Timer.stageSettings:
turnNumber >= 0 ? turnNumber / 2 : 0. Note: plain binary64 division by 2,
exact for integer turn counters, with no floor taken. -/
def Timer.currentTurn (t : Timer) : JsNum :=
  if t.turnNumber ≥ 0 then t.turnNumber / 2 else 0

/-- types.ts Timer.stageSettings: scan a reversed copy of the stored
settings list and return the first stage whose startTurn is at most the
current turn value; throw when none matches. -/
def Timer.stageSettings (t : Timer) : Except StageError StageSettings :=
  match t.settings.reverse.find? (fun stage => decide (stage.startTurn ≤ t.currentTurn)) with
  | some stage => Except.ok stage
  | none => Except.error StageError.noFirstStage

/-- types.ts TimerSide.totalTimeRemaining at wall-clock instant now.
The Interval from turnStartedAt to now is faithful for turnStartedAt ≤ now
(the monotonic-clock regime the spec assumes); theorems about the active
branch carry that hypothesis. -/
def TimerSide.totalTimeRemaining (side : TimerSide) (timer : Timer) (now : JsNum) :
    Except StageError JsNum :=
  match timer.turnStartedAt with
  | none =>
    match timer.stageSettings with
    | Except.ok stage => Except.ok stage.initialTime
    | Except.error e => Except.error e
  | some turnStartedAt =>
    if !side.isTurn then
      Except.ok side.totalTimeLastTurn
    else
      match timer.stageSettings with
      | Except.error e => Except.error e
      | Except.ok stage =>
        if (now - turnStartedAt) - stage.fixedTimePerTurn < 0 then
          Except.ok side.totalTimeLastTurn
        else
          Except.ok (side.totalTimeLastTurn - ((now - turnStartedAt) - stage.fixedTimePerTurn))

/-- types.ts TimerSide.turnTimeRemaining at wall-clock instant now.
As in totalTimeRemaining, the Interval from turnStartedAt to now is
faithful for turnStartedAt ≤ now (the monotonic-clock regime the spec
assumes; for an earlier now the source goes through an invalid Interval
and returns the zero duration instead); the theorem about the active
branch carries that hypothesis. -/
def TimerSide.turnTimeRemaining (side : TimerSide) (timer : Timer) (now : JsNum) :
    Except StageError JsNum :=
  match timer.turnStartedAt with
  | none =>
    match timer.stageSettings with
    | Except.ok stage => Except.ok stage.fixedTimePerTurn
    | Except.error e => Except.error e
  | some turnStartedAt =>
    if !side.isTurn then
      match timer.stageSettings with
      | Except.ok stage => Except.ok stage.fixedTimePerTurn
      | Except.error e => Except.error e
    else
      match timer.stageSettings with
      | Except.error e => Except.error e
      | Except.ok stage =>
        if stage.fixedTimePerTurn - (now - turnStartedAt) > 0 then
          Except.ok (stage.fixedTimePerTurn - (now - turnStartedAt))
        else
          Except.ok 0

/-- Number.MAX_SAFE_INTEGER. -/
def maxSafeInteger : JsNum := 9007199254740991

/-- The ECMAScript Date range bound: a time value is a valid instant exactly
when its magnitude is at most 8,640,000,000,000,000 ms from the epoch; the
date library used by the code marks DateTime values beyond this bound
invalid. -/
def maxRepresentableMs : JsNum := 8640000000000000

/-- The value DateTime.fromSeconds(Number.MAX_SAFE_INTEGER) denotes, in ms. -/
def neverSentinelMs : JsNum := maxSafeInteger * 1000

/-- types.ts TimerSide.timesOutAt. -/
def TimerSide.timesOutAt (side : TimerSide) (timer : Timer) :
    Except StageError JsNum :=
  match timer.turnStartedAt with
  | none => Except.ok neverSentinelMs
  | some turnStartedAt =>
    match timer.stageSettings with
    | Except.error e => Except.error e
    | Except.ok stage =>
      Except.ok (turnStartedAt + side.totalTimeLastTurn + stage.fixedTimePerTurn)

/-! Event dispatcher (socket.ts TimerConnection listener registry).

A listener is an opaque callback handle: a registration identity (function
reference identity in JavaScript, modelled by a natural number) together
with how its invocation behaves — it returns normally, returns a promise
that later rejects, or throws synchronously. -/

/-- How one listener invocation behaves. -/
inductive ListenerOutcome
  | ok
  | rejectedPromise
  | syncThrow
deriving Repr, DecidableEq

/-- An opaque listener handle: identity plus invocation behaviour. -/
structure Listener where
  id : ℕ
  outcome : ListenerOutcome
deriving Repr, DecidableEq

/-- The socket event names. -/
inductive EventName
  | connect
  | connect_error
  | disconnect
  | state_update
  | error
deriving Repr, DecidableEq

/-- The listener registry of a TimerConnection. The Map with absent keys
read through the or-empty fallback is modelled as a total function into
lists, absent keys holding the empty list. -/
structure TimerConnection where
  listeners : EventName → List Listener

/-- socket.ts TimerConnection.addListener: push onto the stored array when
one exists, else store a fresh singleton array; either way the registered
list for the event becomes the old list with the listener appended. -/
def addListener (c : TimerConnection) (event : EventName) (l : Listener) :
    TimerConnection :=
  ⟨fun e => if e = event then c.listeners event ++ [l] else c.listeners e⟩

/-- socket.ts TimerConnection.removeListener: replace the stored array by
the array filtered on reference inequality with the given listener. -/
def removeListener (c : TimerConnection) (event : EventName) (l : Listener) :
    TimerConnection :=
  ⟨fun e => if e = event then (c.listeners event).filter (fun item => item != l)
            else c.listeners e⟩

/-- JavaScript Array.map as applied by _triggerEvent to the listener list:
the callback is applied left to right; a listener that throws synchronously
aborts the map (later listeners are not called), while a listener returning
a rejected promise has already run. Returns the invocations performed (each
listener identity paired with the payload it received) and whether the map
ran to the end of the list without a synchronous throw. -/
def mapInvoke {α : Type} : List Listener → α → List (ℕ × α) × Bool
  | [], _ => ([], true)
  | l :: rest, payload =>
    if l.outcome = ListenerOutcome.syncThrow then
      ([(l.id, payload)], false)
    else
      ((l.id, payload) :: (mapInvoke rest payload).1, (mapInvoke rest payload).2)

/-- socket.ts TimerConnection._triggerEvent: Promise.all over mapping the
listener invocation across the registered list (or the empty list). -/
def triggerEvent {α : Type} (c : TimerConnection) (event : EventName) (payload : α) :
    List (ℕ × α) × Bool :=
  mapInvoke (c.listeners event) payload

/-! API errors (types.ts ApiError, socket.ts _onError). -/

/-- types.ts ApiError: detail string and numeric code. -/
structure ApiError where
  detail : String
  code : JsNum
deriving Repr, DecidableEq

/-- The TypeScript default for the ApiError code parameter. -/
def apiErrorDefaultCode : JsNum := 400

/-- The ApiError constructor: an omitted code argument takes the default. -/
def mkApiError (detail : String) (code : Option JsNum) : ApiError :=
  ⟨detail, code.getD apiErrorDefaultCode⟩

/-- An inbound error payload: detail string, and a code that may be absent. -/
structure RawApiError where
  detail : String
  code : Option JsNum
deriving Repr, DecidableEq

/-- socket.ts TimerConnection._onError: builds the ApiError from the detail
alone — the code field of the payload is not read, so the constructor
default applies to every delivered error. -/
def onError (rawError : RawApiError) : ApiError :=
  mkApiError rawError.detail none

/-- The delivered error as the spec describes it (detail verbatim, code
verbatim with 400 only for an absent code), for comparison with onError. -/
def specDeliveredError (rawError : RawApiError) : ApiError :=
  mkApiError rawError.detail rawError.code

/-! Timer snapshot assembly from a raw payload (types.ts Timer constructor,
with absent fields modelled explicitly). An Option at the outer layer marks
a field that may be absent from the payload (JavaScript undefined); for the
nullable timestamp fields a second Option layer distinguishes null (inner
none) from a numeric value. -/

/-- Untyped runtime errors thrown during assembly. -/
inductive JsError
  | typeError
  | invalidArgument
  | invalidUnitValue
deriving Repr, DecidableEq

/-- Raw side payload with possibly-absent fields. -/
structure RawSide where
  is_turn : Option Bool
  total_time : Option JsNum
  connected : Option Bool
deriving Repr, DecidableEq

/-- Raw timer payload with possibly-absent fields. An absent home or away
and a null one are both falsy and are not distinguished by the code. -/
structure RawTimer where
  id : Option JsNum
  turn_number : Option JsNum
  turn_started_at : Option (Option JsNum)
  started_at : Option (Option JsNum)
  has_ended : Option Bool
  end_reporter : Option (Option JsNum)
  home : Option RawSide
  away : Option RawSide
  settings : Option (List RawStage)
  observers : Option JsNum
  managed : Option Bool
deriving Repr, DecidableEq

/-- types.ts loadOptionalDateTime on a possibly-absent argument: a null
field is passed through as null; a numeric field becomes an instant; an
absent field is not null, so it reaches DateTime.fromSeconds, which rejects
a non-numerical input. -/
def loadOptionalDateTimeJs (v : Option (Option JsNum)) : Except JsError (Option JsNum) :=
  match v with
  | some none => Except.ok none
  | some (some seconds) => Except.ok (some (seconds * 1000))
  | none => Except.error JsError.invalidArgument

/-- types.ts loadDuration on a possibly-absent argument: an absent field
makes seconds * 1000 a NaN, which the Duration factory rejects. -/
def loadDurationJs (v : Option JsNum) : Except JsError JsNum :=
  match v with
  | some seconds => Except.ok (seconds * 1000)
  | none => Except.error JsError.invalidUnitValue

/-- A constructed TimerSide as the constructor actually leaves it: the
boolean fields are stored unvalidated (undefined when absent). -/
structure AssembledSide where
  isTurn : Option Bool
  totalTimeLastTurn : JsNum
  connected : Option Bool
deriving Repr, DecidableEq

/-- types.ts TimerSide constructor on a raw side payload. -/
def TimerSide.construct (data : RawSide) : Except JsError AssembledSide :=
  match loadDurationJs data.total_time with
  | Except.error e => Except.error e
  | Except.ok total => Except.ok ⟨data.is_turn, total, data.connected⟩

/-- The home and away assignments: a falsy side stays null, a present one
is constructed (propagating any throw). -/
def constructOptSide (v : Option RawSide) : Except JsError (Option AssembledSide) :=
  match v with
  | none => Except.ok none
  | some raw =>
    match TimerSide.construct raw with
    | Except.error e => Except.error e
    | Except.ok s => Except.ok (some s)

/-- A constructed Timer as the constructor actually leaves it: every field
the constructor copies without conversion is stored unvalidated (undefined
when absent from the payload). -/
structure AssembledTimer where
  id : Option JsNum
  turnNumber : Option JsNum
  turnStartedAt : Option JsNum
  startedAt : Option JsNum
  hasEnded : Option Bool
  endReporter : Option (Option JsNum)
  home : Option AssembledSide
  away : Option AssembledSide
  settings : List StageSettings
  observers : Option JsNum
  managed : Option Bool
deriving Repr, DecidableEq

/-- types.ts Timer constructor: fields are processed in source order, so the
first conversion that throws determines the surfaced error; the unconverted
fields are copied as-is with no presence or shape check. -/
def Timer.construct (data : RawTimer) : Except JsError AssembledTimer :=
  match loadOptionalDateTimeJs data.turn_started_at with
  | Except.error e => Except.error e
  | Except.ok turnStartedAt =>
    match loadOptionalDateTimeJs data.started_at with
    | Except.error e => Except.error e
    | Except.ok startedAt =>
      match constructOptSide data.home with
      | Except.error e => Except.error e
      | Except.ok home =>
        match constructOptSide data.away with
        | Except.error e => Except.error e
        | Except.ok away =>
          match data.settings with
          | none => Except.error JsError.typeError
          | some rawSettings =>
            Except.ok ⟨data.id, data.turn_number, turnStartedAt, startedAt,
                       data.has_ended, data.end_reporter, home, away,
                       rawSettings.map StageSettings.load,
                       data.observers, data.managed⟩

/-! IEEE-754 binary64 semantics for the serialization round trip.

The dump and load pair divides a millisecond count by 1000 and multiplies
the re-parsed seconds value by 1000. Unlike every computation above, the
round-trip identity is decided by binary64 rounding, so these two
operations are modelled with explicit rounding: a binary64 result is the
nearest representable value, ties to even, with the significand scaled
into the half-open range from 2 to the 52nd up to 2 to the 53rd. The model
covers normal finite values, which is the range every value here lives in;
zero is mapped to zero. -/

/-- Round to the nearest integer, ties to even. -/
def rte (x : ℚ) : ℤ :=
  if x - ⌊x⌋ < 1/2 then ⌊x⌋
  else if 1/2 < x - ⌊x⌋ then ⌊x⌋ + 1
  else if ⌊x⌋ % 2 = 0 then ⌊x⌋ else ⌊x⌋ + 1

/-- Round an exact rational to the nearest binary64 value (normal range):
scale the value so that its magnitude lies in the binade of 53-bit
integers, round to the nearest integer significand with ties to even, and
scale back. -/
def fl (q : ℚ) : ℚ :=
  if q = 0 then 0
  else (rte (q * (2 : ℚ) ^ (52 - Int.log 2 |q|)) : ℚ) * (2 : ℚ) ^ (Int.log 2 |q| - 52)

/-- Binary64 multiplication of exact inputs. -/
def jsMul (a b : ℚ) : ℚ := fl (a * b)

/-- Binary64 division of exact inputs. -/
def jsDiv (a b : ℚ) : ℚ := fl (a / b)

/-- types.ts loadDuration under binary64 semantics. -/
def loadDurationF (seconds : JsNum) : JsNum := jsMul seconds 1000

/-- types.ts StageSettings.load under binary64 semantics. -/
def StageSettings.loadF (data : RawStage) : StageSettings :=
  ⟨data.start_turn,
   loadDurationF data.seconds_fixed_per_turn,
   loadDurationF data.seconds_incremement_per_turn,
   loadDurationF data.initial_seconds⟩

/-- types.ts StageSettings.dump under binary64 semantics. -/
def StageSettings.dumpF (s : StageSettings) : RawStage :=
  ⟨s.startTurn,
   jsDiv s.fixedTimePerTurn 1000,
   jsDiv s.incrementPerTurn 1000,
   jsDiv s.initialTime 1000⟩

/-! Concrete instances used by witnesses and counterexamples. -/

/-- The documented concrete scenario stage: zero fixed time per turn, a 30
second increment, 300 seconds of initial time, from the first turn. -/
def demoStage : StageSettings := ⟨0, 0, 30000, 300000⟩

/-- A running timer on turn pair zero whose current turn started at the
epoch, carrying the demo stage. -/
def demoTimer : Timer :=
  ⟨7, 0, some 0, some 0, false, none, none, none, [demoStage], 0, false⟩

/-- The active side of the demo timer with a 300 second bank. -/
def demoSide : TimerSide := ⟨true, 300000, true⟩

/-- A second stage taking over from turn pair 10. -/
def c1StageTen : StageSettings := ⟨10, 30000, 0, 300000⟩

/-- A first stage applying from turn pair 0. -/
def c1StageZero : StageSettings := ⟨0, 60000, 0, 300000⟩

/-- A timer storing its two stages in descending startTurn order, at turn
number 20 (turn pair 10). -/
def c1Timer : Timer :=
  ⟨1, 20, some 0, some 0, false, none, none, none,
   [c1StageTen, c1StageZero], 0, false⟩

/-- The demo timer with the two stages stored ascending, at turn 21. -/
def c1TimerAsc : Timer :=
  ⟨1, 21, some 0, some 0, false, none, none, none,
   [c1StageZero, c1StageTen], 0, false⟩

/-- A never-started timer for the timeout sentinel. -/
def c4Timer : Timer :=
  ⟨9, 0, none, none, false, none, none, none, [demoStage], 0, false⟩

/-- An inactive side with a 300 second bank. -/
def c4Side : TimerSide := ⟨false, 300000, true⟩

/-- A schedule whose only stage starts at turn pair 1; no zero-start stage. -/
def c5Stage : StageSettings := ⟨1, 30000, 0, 300000⟩

/-- A timer at turn number 2 (turn pair 1) over that schedule. -/
def c5Timer : Timer :=
  ⟨2, 2, none, none, false, none, none, none, [c5Stage], 0, false⟩

/-- A registry whose state_update list holds a synchronously-throwing
listener followed by a well-behaved one. -/
def c6Conn : TimerConnection :=
  ⟨fun e => match e with
    | EventName.state_update => [⟨0, ListenerOutcome.syncThrow⟩, ⟨1, ListenerOutcome.ok⟩]
    | _ => []⟩

/-- A registry with no listeners at all. -/
def emptyConn : TimerConnection := ⟨fun _ => []⟩

/-- A registry whose error list holds a listener that fails by returning a
rejected promise, followed by a well-behaved one. -/
def c6GoodConn : TimerConnection :=
  ⟨fun e => match e with
    | EventName.error => [⟨2, ListenerOutcome.rejectedPromise⟩, ⟨3, ListenerOutcome.ok⟩]
    | _ => []⟩

/-- A well-behaved listener handle. -/
def c7Listener : Listener := ⟨5, ListenerOutcome.ok⟩

/-- A raw snapshot payload that is fully well-formed except that the
required id field is absent. -/
def c8RawNoId : RawTimer :=
  ⟨none, some 4, some (some 1), some (some 1), some false, some none,
   none, none, some [⟨0, 30, 5, 300⟩], some 2, some false⟩

/-- The timer record the constructor produces from that payload: the
missing id is silently stored as undefined. -/
def c8Assembled : AssembledTimer :=
  ⟨none, some 4, some 1000, some 1000, some false, some none,
   none, none, [⟨0, 30000, 5000, 300000⟩], some 2, some false⟩

/-- A raw payload whose settings field is absent (nullable fields null,
sides absent). -/
def c8RawNoSettings : RawTimer :=
  ⟨some 3, some 4, some none, some none, some false, some none,
   none, none, none, some 2, some false⟩

/-- The error payload of a server rejection with an explicit 403 code. -/
def c9Raw : RawApiError := ⟨"forbidden", some 403⟩

/-- A stage whose durations are exact in milliseconds (1001 ms of fixed
time per turn) but do not survive the binary64 round trip. -/
def c10Stage : StageSettings := ⟨0, 1001, 0, 0⟩

/-! Helper lemmas. -/

theorem find?_desc_max {l : List StageSettings} {τ : ℚ} {s : StageSettings}
    (hdesc : l.Pairwise (fun a b => b.startTurn ≤ a.startTurn))
    (hfind : l.find? (fun x => decide (x.startTurn ≤ τ)) = some s) :
    s ∈ l ∧ s.startTurn ≤ τ ∧
      ∀ x ∈ l, x.startTurn ≤ τ → x.startTurn ≤ s.startTurn := by
  induction l with
  | nil => simp at hfind
  | cons a rest ih =>
    rcases List.pairwise_cons.mp hdesc with ⟨ha, hrest⟩
    by_cases hpa : a.startTurn ≤ τ
    · rw [List.find?_cons_of_pos _ (by simpa using hpa)] at hfind
      obtain rfl : a = s := by simpa using hfind
      refine ⟨List.mem_cons_self _ _, hpa, ?_⟩
      intro x hx _
      rcases List.mem_cons.mp hx with rfl | hx
      · exact le_refl _
      · exact ha x hx
    · rw [List.find?_cons_of_neg _ (by simpa using hpa)] at hfind
      obtain ⟨hmem, hle, hmax⟩ := ih hrest hfind
      refine ⟨List.mem_cons_of_mem _ hmem, hle, ?_⟩
      intro x hx hxτ
      rcases List.mem_cons.mp hx with rfl | hx
      · exact absurd hxτ hpa
      · exact hmax x hx hxτ

theorem find?_some_of_mem {α : Type} {p : α → Bool} {l : List α} {x : α}
    (hx : x ∈ l) (hpx : p x = true) : ∃ y, l.find? p = some y := by
  induction l with
  | nil => simp at hx
  | cons a rest ih =>
    by_cases hpa : p a = true
    · exact ⟨a, List.find?_cons_of_pos _ hpa⟩
    · rcases List.mem_cons.mp hx with rfl | hmem
      · exact absurd hpx hpa
      · obtain ⟨y, hy⟩ := ih hmem
        exact ⟨y, by rw [List.find?_cons_of_neg _ (by simpa using hpa)]; exact hy⟩

theorem currentTurn_nonneg (t : Timer) : 0 ≤ t.currentTurn := by
  unfold Timer.currentTurn
  split
  · next h => positivity
  · exact le_refl 0

theorem stageSettings_ok_of_zero_stage {t : Timer} {s : StageSettings}
    (hs : s ∈ t.settings) (hzero : s.startTurn = 0) :
    ∃ stage, t.stageSettings = Except.ok stage := by
  have hmem : s ∈ t.settings.reverse := List.mem_reverse.mpr hs
  have hps : (fun x : StageSettings => decide (x.startTurn ≤ t.currentTurn)) s = true := by
    simp only [decide_eq_true_eq]
    rw [hzero]
    exact currentTurn_nonneg t
  obtain ⟨y, hy⟩ :=
    find?_some_of_mem (p := fun x : StageSettings => decide (x.startTurn ≤ t.currentTurn)) hmem hps
  exact ⟨y, by unfold Timer.stageSettings; rw [hy]⟩

theorem mapInvoke_no_throw {α : Type} (l : List Listener) (p : α)
    (h : ∀ x ∈ l, x.outcome ≠ ListenerOutcome.syncThrow) :
    mapInvoke l p = (l.map fun x => (x.id, p), true) := by
  induction l with
  | nil => rfl
  | cons a rest ih =>
    have ha : a.outcome ≠ ListenerOutcome.syncThrow := h a (List.mem_cons_self _ _)
    have hrest := ih fun x hx => h x (List.mem_cons_of_mem _ hx)
    simp only [mapInvoke, if_neg ha, hrest, List.map_cons]

theorem count_pair_map_zero {α : Type} [DecidableEq α] (l : List Listener)
    (S : α) (i : ℕ) (h : ∀ x ∈ l, x.id ≠ i) :
    ((l.map fun x => (x.id, S)).count (i, S)) = 0 := by
  induction l with
  | nil => rfl
  | cons a rest ih =>
    have ha : a.id ≠ i := h a (List.mem_cons_self _ _)
    have hrest := ih fun x hx => h x (List.mem_cons_of_mem _ hx)
    simp only [List.map_cons, List.count_cons, hrest]
    simp [ha]

theorem int_log2_eq {q : ℚ} {e : ℤ} (hq : 0 < q)
    (h1 : (2 : ℚ) ^ e ≤ q) (h2 : q < (2 : ℚ) ^ (e + 1)) : Int.log 2 q = e := by
  have hb : 1 < 2 := one_lt_two
  have h1' : ((2 : ℕ) : ℚ) ^ e ≤ q := by exact_mod_cast h1
  have h2' : q < ((2 : ℕ) : ℚ) ^ (e + 1) := by exact_mod_cast h2
  have hle : e ≤ Int.log 2 q := (Int.zpow_le_iff_le_log hb hq).mp h1'
  have hlt : Int.log 2 q < e + 1 := (Int.lt_zpow_iff_log_lt hb hq).mp h2'
  omega

theorem fl_eq_pos {q : ℚ} {e m : ℤ} (hq : 0 < q)
    (h1 : (2 : ℚ) ^ e ≤ q) (h2 : q < (2 : ℚ) ^ (e + 1))
    (hm : rte (q * (2 : ℚ) ^ (52 - e)) = m) :
    fl q = (m : ℚ) * (2 : ℚ) ^ (e - 52) := by
  have habs : |q| = q := abs_of_pos hq
  unfold fl
  rw [if_neg hq.ne', habs, int_log2_eq hq h1 h2, hm]

theorem jsDiv_zero : jsDiv 0 1000 = 0 := by
  unfold jsDiv fl
  norm_num

theorem jsMul_zero : jsMul 0 1000 = 0 := by
  unfold jsMul fl
  norm_num

theorem jsDiv_30000 : jsDiv 30000 1000 = 30 := by
  have h := fl_eq_pos (q := (30000 : ℚ) / 1000) (e := 4) (m := 8444249301319680)
    (by norm_num) (by norm_num) (by norm_num) (by unfold rte; norm_num)
  unfold jsDiv
  rw [h]
  norm_num

theorem jsMul_30 : jsMul 30 1000 = 30000 := by
  have h := fl_eq_pos (q := (30 : ℚ) * 1000) (e := 14) (m := 8246337208320000)
    (by norm_num) (by norm_num) (by norm_num) (by unfold rte; norm_num)
  unfold jsMul
  rw [h]
  norm_num

theorem jsDiv_300000 : jsDiv 300000 1000 = 300 := by
  have h := fl_eq_pos (q := (300000 : ℚ) / 1000) (e := 8) (m := 5277655813324800)
    (by norm_num) (by norm_num) (by norm_num) (by unfold rte; norm_num)
  unfold jsDiv
  rw [h]
  norm_num

theorem jsMul_300 : jsMul 300 1000 = 300000 := by
  have h := fl_eq_pos (q := (300 : ℚ) * 1000) (e := 18) (m := 5153960755200000)
    (by norm_num) (by norm_num) (by norm_num) (by unfold rte; norm_num)
  unfold jsMul
  rw [h]
  norm_num

theorem jsDiv_1001 : jsDiv 1001 1000 = 2254051613498933 / 2251799813685248 := by
  have h := fl_eq_pos (q := (1001 : ℚ) / 1000) (e := 0) (m := 4508103226997866)
    (by norm_num) (by norm_num) (by norm_num) (by unfold rte; norm_num)
  unfold jsDiv
  rw [h]
  norm_num

theorem jsMul_1001 :
    jsMul (2254051613498933 / 2251799813685248) 1000 = 8804889115230207 / 8796093022208 := by
  have h := fl_eq_pos (q := (2254051613498933 : ℚ) / 2251799813685248 * 1000)
    (e := 9) (m := 8804889115230207)
    (by norm_num) (by norm_num) (by norm_num) (by unfold rte; norm_num)
  unfold jsMul
  rw [h]
  norm_num

theorem demoTimer_stage : demoTimer.stageSettings = Except.ok demoStage := by
  unfold Timer.stageSettings
  have hrev : demoTimer.settings.reverse = [demoStage] := rfl
  rw [hrev, List.find?_cons_of_pos _ (by norm_num [demoStage, demoTimer, Timer.currentTurn])]

/-! C1: stage resolution picks the stage with the largest startTurn at most
the current turn pair. The code scans a reversed copy of the stored list,
so this holds for schedules stored in ascending startTurn order, not for
every storage order. -/

/-- C1 (counterexample): with the two stages stored in descending startTurn
order, at turn number 20 (turn pair 10) resolution returns the zero-start
stage although a stage with startTurn 10 is in the schedule and 10 is at
most the turn pair, so the returned startTurn is not the largest one. -/
theorem c1_counterexample :
    c1Timer.stageSettings = Except.ok c1StageZero ∧
    c1StageTen ∈ c1Timer.settings ∧
    c1StageTen.startTurn ≤ ((⌊c1Timer.turnNumber / 2⌋ : ℤ) : ℚ) ∧
    c1StageZero.startTurn < c1StageTen.startTurn := by
  refine ⟨?_, ?_, ?_, ?_⟩
  · unfold Timer.stageSettings
    have hrev : c1Timer.settings.reverse = [c1StageZero, c1StageTen] := rfl
    rw [hrev, List.find?_cons_of_pos _ (by norm_num [c1StageZero, c1Timer, Timer.currentTurn])]
  · simp [c1Timer]
  · norm_num [c1StageTen, c1Timer]
  · norm_num [c1StageZero, c1StageTen]

/-- C1 (amended): for every stage schedule stored in ascending startTurn
order that contains a zero-start stage, with integer startTurn values and
a non-negative integer turn number, Timer.stageSettings returns exactly
one stage, and that stage has the largest startTurn at most the turn pair
(the floor of half the turn number) among all stages in the schedule. -/
theorem c1_theorem (t : Timer)
    (hsorted : t.settings.Pairwise fun a b => a.startTurn < b.startTurn)
    (hzero : ∃ s ∈ t.settings, s.startTurn = 0)
    (hn : ∃ m : ℕ, t.turnNumber = (m : ℚ))
    (hint : ∀ s ∈ t.settings, ∃ k : ℕ, s.startTurn = (k : ℚ)) :
    ∃ stage, t.stageSettings = Except.ok stage ∧ stage ∈ t.settings ∧
      stage.startTurn ≤ ((⌊t.turnNumber / 2⌋ : ℤ) : ℚ) ∧
      ∀ x ∈ t.settings, x.startTurn ≤ ((⌊t.turnNumber / 2⌋ : ℤ) : ℚ) →
        x.startTurn ≤ stage.startTurn := by
  obtain ⟨s0, hs0mem, hs0zero⟩ := hzero
  obtain ⟨stage, hok⟩ := stageSettings_ok_of_zero_stage hs0mem hs0zero
  have hfind : t.settings.reverse.find?
      (fun x => decide (x.startTurn ≤ t.currentTurn)) = some stage := by
    have h := hok
    unfold Timer.stageSettings at h
    cases hf : t.settings.reverse.find? (fun x => decide (x.startTurn ≤ t.currentTurn)) with
    | none => rw [hf] at h; simp at h
    | some y =>
      rw [hf] at h
      simp only [Except.ok.injEq] at h
      rw [h]
  have hdesc : t.settings.reverse.Pairwise fun a b => b.startTurn ≤ a.startTurn := by
    rw [List.pairwise_reverse]
    exact hsorted.imp fun h => le_of_lt h
  obtain ⟨hmem, hle, hmax⟩ := find?_desc_max hdesc hfind
  obtain ⟨n, hn'⟩ := hn
  have hturn : t.currentTurn = t.turnNumber / 2 := by
    unfold Timer.currentTurn
    rw [if_pos (by rw [hn']; positivity)]
  obtain ⟨k, hk⟩ := hint stage (List.mem_reverse.mp hmem)
  have hkle : (k : ℚ) ≤ t.turnNumber / 2 := by rw [← hk, ← hturn]; exact hle
  have hkfloor : (k : ℤ) ≤ ⌊t.turnNumber / 2⌋ := Int.le_floor.mpr (by exact_mod_cast hkle)
  refine ⟨stage, hok, List.mem_reverse.mp hmem, ?_, ?_⟩
  · rw [hk]; exact_mod_cast hkfloor
  · intro x hx hxfloor
    refine hmax x (List.mem_reverse.mpr hx) ?_
    rw [hturn]
    exact le_trans hxfloor (Int.floor_le _)

/-- C1 (witness): the amended theorem applied to the ascending two-stage
schedule at turn number 21 (turn pair 10), which resolves to the stage
starting at turn pair 10. -/
theorem c1_witness :
    ∃ stage, c1TimerAsc.stageSettings = Except.ok stage ∧ stage ∈ c1TimerAsc.settings ∧
      stage.startTurn ≤ ((⌊c1TimerAsc.turnNumber / 2⌋ : ℤ) : ℚ) ∧
      ∀ x ∈ c1TimerAsc.settings, x.startTurn ≤ ((⌊c1TimerAsc.turnNumber / 2⌋ : ℤ) : ℚ) →
        x.startTurn ≤ stage.startTurn := by
  refine c1_theorem c1TimerAsc ?_ ⟨c1StageZero, by simp [c1TimerAsc], rfl⟩
    ⟨21, by norm_num [c1TimerAsc]⟩ ?_
  · simp only [c1TimerAsc, List.pairwise_cons]
    refine ⟨?_, ?_, ?_⟩ <;> norm_num [c1StageZero, c1StageTen]
  · intro s hs
    have hset : c1TimerAsc.settings = [c1StageZero, c1StageTen] := rfl
    rw [hset] at hs
    simp only [List.mem_cons, List.not_mem_nil, or_false] at hs
    rcases hs with h | h
    · exact ⟨0, by rw [h]; norm_num [c1StageZero]⟩
    · exact ⟨10, by rw [h]; norm_num [c1StageTen]⟩

/-- C2: bank time remaining. For the active side with the timer started, it
is totalTimeLastTurn while the elapsed time is within the fixed per-turn
allotment (overage at most zero) and totalTimeLastTurn minus the overage
afterwards, un-clamped; for the inactive side it is totalTimeLastTurn for
every now; before the timer starts it is the resolved stage's initialTime. -/
theorem c2_theorem (side : TimerSide) (timer : Timer) (now turnStart : JsNum)
    (stage : StageSettings) :
    (timer.turnStartedAt = none → timer.stageSettings = Except.ok stage →
      side.totalTimeRemaining timer now = Except.ok stage.initialTime) ∧
    (timer.turnStartedAt = some turnStart → side.isTurn = false →
      side.totalTimeRemaining timer now = Except.ok side.totalTimeLastTurn) ∧
    (timer.turnStartedAt = some turnStart → side.isTurn = true →
      timer.stageSettings = Except.ok stage → turnStart ≤ now →
      ((now - turnStart - stage.fixedTimePerTurn ≤ 0 →
        side.totalTimeRemaining timer now = Except.ok side.totalTimeLastTurn) ∧
       (0 < now - turnStart - stage.fixedTimePerTurn →
        side.totalTimeRemaining timer now =
          Except.ok (side.totalTimeLastTurn - (now - turnStart - stage.fixedTimePerTurn))))) := by
  refine ⟨?_, ?_, ?_⟩
  · intro h1 h2
    simp [TimerSide.totalTimeRemaining, h1, h2]
  · intro h1 h2
    simp [TimerSide.totalTimeRemaining, h1, h2]
  · intro h1 h2 h3 _
    constructor
    · intro hle
      simp only [TimerSide.totalTimeRemaining, h1, h2, h3, Bool.not_true, Bool.false_eq_true,
        if_false]
      rcases lt_or_eq_of_le hle with hlt | heq0
      · rw [if_pos hlt]
      · rw [if_neg (by rw [heq0]; exact lt_irrefl 0), heq0, sub_zero]
    · intro hpos
      simp only [TimerSide.totalTimeRemaining, h1, h2, h3, Bool.not_true, Bool.false_eq_true,
        if_false]
      rw [if_neg (not_lt.mpr (le_of_lt hpos))]

/-- C2 (witness): the documented scenario — active side, 300 second bank,
zero fixed time, queried 10 seconds into the turn — has 290 seconds left. -/
theorem c2_witness :
    TimerSide.totalTimeRemaining demoSide demoTimer 10000 = Except.ok 290000 := by
  have h := ((c2_theorem demoSide demoTimer 10000 0 demoStage).2.2
    rfl rfl demoTimer_stage (by norm_num)).2 (by norm_num [demoStage])
  rw [h]
  norm_num [demoSide, demoStage]

/-- C3: turn-allotment time remaining equals the full fixedTimePerTurn when
the timer has not started or it is not this side's turn; for the active
side — stated for turnStart ≤ now, the monotonic-clock regime in which the
Interval model is faithful — it is fixedTimePerTurn minus elapsed while
positive and zero once elapsed reaches fixedTimePerTurn; for a
non-negative stage allotment the result is never negative. -/
theorem c3_theorem (side : TimerSide) (timer : Timer) (now turnStart : JsNum)
    (stage : StageSettings) (hstage : timer.stageSettings = Except.ok stage) :
    (timer.turnStartedAt = none →
      side.turnTimeRemaining timer now = Except.ok stage.fixedTimePerTurn) ∧
    (side.isTurn = false →
      side.turnTimeRemaining timer now = Except.ok stage.fixedTimePerTurn) ∧
    (timer.turnStartedAt = some turnStart → side.isTurn = true → turnStart ≤ now →
      ((0 < stage.fixedTimePerTurn - (now - turnStart) →
        side.turnTimeRemaining timer now =
          Except.ok (stage.fixedTimePerTurn - (now - turnStart))) ∧
       (stage.fixedTimePerTurn ≤ now - turnStart →
        side.turnTimeRemaining timer now = Except.ok 0))) ∧
    (0 ≤ stage.fixedTimePerTurn →
      ∀ v, side.turnTimeRemaining timer now = Except.ok v → 0 ≤ v) := by
  refine ⟨?_, ?_, ?_, ?_⟩
  · intro h1
    simp [TimerSide.turnTimeRemaining, h1, hstage]
  · intro h2
    cases h1 : timer.turnStartedAt with
    | none => simp [TimerSide.turnTimeRemaining, h1, hstage]
    | some ts => simp [TimerSide.turnTimeRemaining, h1, h2, hstage]
  · intro h1 h2 _
    constructor
    · intro hpos
      simp only [TimerSide.turnTimeRemaining, h1, h2, hstage, Bool.not_true, Bool.false_eq_true,
        if_false]
      rw [if_pos hpos]
    · intro hle
      simp only [TimerSide.turnTimeRemaining, h1, h2, hstage, Bool.not_true, Bool.false_eq_true,
        if_false]
      rw [if_neg (not_lt.mpr (by linarith))]
  · intro hfix v hv
    cases h1 : timer.turnStartedAt with
    | none =>
      simp [TimerSide.turnTimeRemaining, h1, hstage] at hv
      rw [← hv]
      exact hfix
    | some ts =>
      cases h2 : side.isTurn with
      | false =>
        simp [TimerSide.turnTimeRemaining, h1, h2, hstage] at hv
        rw [← hv]
        exact hfix
      | true =>
        simp only [TimerSide.turnTimeRemaining, h1, h2, hstage, Bool.not_true,
          Bool.false_eq_true, if_false] at hv
        by_cases hpos : stage.fixedTimePerTurn - (now - ts) > 0
        · rw [if_pos hpos] at hv
          simp only [Except.ok.injEq] at hv
          rw [← hv]
          exact le_of_lt hpos
        · rw [if_neg hpos] at hv
          simp only [Except.ok.injEq] at hv
          rw [← hv]

/-- C3 (witness): in the documented scenario (zero fixed time per turn,
10 seconds elapsed) the turn clock reads zero, and it is non-negative. -/
theorem c3_witness :
    TimerSide.turnTimeRemaining demoSide demoTimer 10000 = Except.ok 0 ∧
    (0 : JsNum) ≤ 0 := by
  have h := (c3_theorem demoSide demoTimer 10000 0 demoStage demoTimer_stage).2.2.1
    rfl rfl (by norm_num)
  have h0 := h.2 (by norm_num [demoStage])
  exact ⟨h0, le_refl 0⟩

/-! C4: the timeout instant. The never-started sentinel is the instant at
Number.MAX_SAFE_INTEGER epoch seconds, which lies strictly beyond the
maximum representable instant of the date model, so it is not the maximum
representable instant (and not a valid instant), though it does exceed
every representable timeout. -/

/-- C4 (counterexample): a never-started side's timesOutAt is the
MAX_SAFE_INTEGER-seconds sentinel, which is strictly greater than the
maximum representable instant — hence not equal to it and not valid. -/
theorem c4_counterexample :
    TimerSide.timesOutAt c4Side c4Timer = Except.ok neverSentinelMs ∧
    maxRepresentableMs < neverSentinelMs ∧
    neverSentinelMs ≠ maxRepresentableMs := by
  refine ⟨rfl, ?_, ?_⟩
  · norm_num [maxRepresentableMs, neverSentinelMs, maxSafeInteger]
  · norm_num [maxRepresentableMs, neverSentinelMs, maxSafeInteger]

/-- C4 (amended): when the timer has not started, timesOutAt is the fixed
sentinel at MAX_SAFE_INTEGER epoch seconds — an instant beyond the maximum
representable one, serving as never — and otherwise it is turnStartedAt
plus totalTimeLastTurn plus the resolved stage's fixedTimePerTurn. -/
theorem c4_theorem (side : TimerSide) (timer : Timer) (turnStart : JsNum)
    (stage : StageSettings) :
    (timer.turnStartedAt = none →
      side.timesOutAt timer = Except.ok neverSentinelMs) ∧
    (timer.turnStartedAt = some turnStart → timer.stageSettings = Except.ok stage →
      side.timesOutAt timer =
        Except.ok (turnStart + side.totalTimeLastTurn + stage.fixedTimePerTurn)) ∧
    maxRepresentableMs < neverSentinelMs := by
  refine ⟨?_, ?_, ?_⟩
  · intro h1
    simp [TimerSide.timesOutAt, h1]
  · intro h1 h2
    simp [TimerSide.timesOutAt, h1, h2]
  · norm_num [maxRepresentableMs, neverSentinelMs, maxSafeInteger]

/-- C4 (witness): the amended theorem applied to a never-started timer and
to the running demo timer, whose side times out 300 seconds after the
start of the turn. -/
theorem c4_witness :
    TimerSide.timesOutAt c4Side c4Timer = Except.ok neverSentinelMs ∧
    TimerSide.timesOutAt demoSide demoTimer = Except.ok 300000 := by
  have ha := (c4_theorem c4Side c4Timer 0 demoStage).1 rfl
  have hb := (c4_theorem demoSide demoTimer 0 demoStage).2.1 rfl demoTimer_stage
  refine ⟨ha, ?_⟩
  rw [hb]
  norm_num [demoSide, demoStage]

/-! C5: failure of stage resolution. Resolution fails exactly when no stage
has startTurn at most the current turn value, so a schedule lacking a
zero-start stage does not always fail: a stage with startTurn 1 is found
once the turn pair reaches 1. With a zero-start stage present the failure
branch is unreachable. -/

/-- C5 (counterexample): a schedule whose only stage starts at turn pair 1
has no zero-start stage, yet resolution at turn number 2 succeeds. -/
theorem c5_counterexample :
    (∀ s ∈ c5Timer.settings, s.startTurn ≠ 0) ∧
    c5Timer.stageSettings = Except.ok c5Stage := by
  constructor
  · intro s hs
    have hset : c5Timer.settings = [c5Stage] := rfl
    rw [hset] at hs
    simp only [List.mem_cons, List.not_mem_nil, or_false] at hs
    rw [hs]
    norm_num [c5Stage]
  · unfold Timer.stageSettings
    have hrev : c5Timer.settings.reverse = [c5Stage] := rfl
    rw [hrev, List.find?_cons_of_pos _ (by norm_num [c5Stage, c5Timer, Timer.currentTurn])]

/-- C5 (amended): resolution fails with the no-first-stage condition iff no
stage has startTurn at most the current turn value; and for any schedule
containing a zero-start stage the failure branch is never reached, for any
turn number. -/
theorem c5_theorem (t : Timer) :
    (t.stageSettings = Except.error StageError.noFirstStage ↔
      ∀ s ∈ t.settings, ¬ s.startTurn ≤ t.currentTurn) ∧
    ((∃ s ∈ t.settings, s.startTurn = 0) →
      ∃ stage, t.stageSettings = Except.ok stage) := by
  constructor
  · unfold Timer.stageSettings
    cases hf : t.settings.reverse.find? (fun x => decide (x.startTurn ≤ t.currentTurn)) with
    | none =>
      simp only []
      constructor
      · intro _ s hs
        have := List.find?_eq_none.mp hf s (List.mem_reverse.mpr hs)
        simpa using this
      · intro _
        trivial
    | some y =>
      simp only []
      constructor
      · intro h
        exact absurd h (by simp)
      · intro h
        have hy : y ∈ t.settings.reverse := List.mem_of_find?_eq_some hf
        have hpy : y.startTurn ≤ t.currentTurn := by simpa using List.find?_some hf
        exact absurd hpy (h y (List.mem_reverse.mp hy))
  · intro ⟨s, hs, h0⟩
    exact stageSettings_ok_of_zero_stage hs h0

/-- C5 (witness): the zero-start demo schedule resolves successfully. -/
theorem c5_witness : ∃ stage, demoTimer.stageSettings = Except.ok stage :=
  (c5_theorem demoTimer).2 ⟨demoStage, by simp [demoTimer], rfl⟩

/-! C6: dispatch independence. Listeners are invoked in registration order
and a rejected promise does not prevent later listeners, but a listener
that throws synchronously aborts the dispatch loop before the remaining
listeners run. -/

theorem mapInvoke_append {α : Type} (l1 l2 : List Listener) (p : α)
    (h : ∀ x ∈ l1, x.outcome ≠ ListenerOutcome.syncThrow) :
    mapInvoke (l1 ++ l2) p =
      ((l1.map fun x => (x.id, p)) ++ (mapInvoke l2 p).1, (mapInvoke l2 p).2) := by
  induction l1 with
  | nil => simp
  | cons a rest ih =>
    have ha : a.outcome ≠ ListenerOutcome.syncThrow := h a (List.mem_cons_self _ _)
    have hrest := ih fun x hx => h x (List.mem_cons_of_mem _ hx)
    simp only [List.cons_append, mapInvoke, if_neg ha, List.append_eq, hrest, List.map_cons]

theorem mapInvoke_singleton {α : Type} (f : Listener) (p : α) :
    (mapInvoke [f] p).1 = [(f.id, p)] := by
  cases hf : f.outcome <;> simp [mapInvoke, hf]

/-- C6 (counterexample): with a synchronously-throwing listener registered
before a well-behaved one, firing invokes only the first listener — the
second registered listener receives no invocation, so one listener's
failure does prevent the rest from running. -/
theorem c6_counterexample :
    (⟨1, ListenerOutcome.ok⟩ : Listener) ∈ c6Conn.listeners EventName.state_update ∧
    (triggerEvent c6Conn EventName.state_update (0 : ℕ)).1 = [(0, 0)] ∧
    ((1, 0) : ℕ × ℕ) ∉ (triggerEvent c6Conn EventName.state_update (0 : ℕ)).1 := by
  refine ⟨?_, rfl, ?_⟩
  · simp [c6Conn]
  · simp [triggerEvent, c6Conn, mapInvoke]

/-- C6 (amended): firing invokes every currently-registered listener with
the payload in registration order, and a listener failing by returning a
rejected promise does not prevent the remaining listeners — provided no
registered listener throws synchronously, since a synchronous throw aborts
the dispatch loop before the remaining listeners are invoked. -/
theorem c6_theorem {α : Type} (c : TimerConnection) (event : EventName) (payload : α)
    (h : ∀ x ∈ c.listeners event, x.outcome ≠ ListenerOutcome.syncThrow) :
    (triggerEvent c event payload).1 =
      (c.listeners event).map (fun x => (x.id, payload)) ∧
    (triggerEvent c event payload).2 = true := by
  unfold triggerEvent
  rw [mapInvoke_no_throw _ _ h]
  exact ⟨rfl, rfl⟩

/-- C6 (witness): both listeners of the two-listener registry — the first
of which fails by rejected promise — are invoked in order. -/
theorem c6_witness :
    (triggerEvent c6GoodConn EventName.error (0 : ℕ)).1 = [(2, 0), (3, 0)] ∧
    (triggerEvent c6GoodConn EventName.error (0 : ℕ)).2 = true := by
  have h := c6_theorem c6GoodConn EventName.error (0 : ℕ) (by decide)
  exact ⟨h.1.trans rfl, h.2⟩

/-- C7: after addListener a single fire invokes the listener exactly once
with the payload; after removeListener a subsequent fire does not invoke
it; removeListener with a never-registered listener is a no-op; firing an
event with zero registered listeners performs no invocation and completes.
The first two parts assume the listener is fresh (function identity not
already registered) and the previously registered listeners do not throw
synchronously. -/
theorem c7_theorem {α : Type} [DecidableEq α] (c : TimerConnection)
    (event : EventName) (f : Listener) (S : α)
    (hfresh : ∀ x ∈ c.listeners event, x.id ≠ f.id)
    (hbehaved : ∀ x ∈ c.listeners event, x.outcome ≠ ListenerOutcome.syncThrow) :
    ((triggerEvent (addListener c event f) event S).1.count (f.id, S) = 1) ∧
    ((triggerEvent (removeListener (addListener c event f) event f) event S).1.count
      (f.id, S) = 0) ∧
    (∀ g : Listener, (∀ x ∈ c.listeners event, x ≠ g) →
      ∀ e, (removeListener c event g).listeners e = c.listeners e) ∧
    (c.listeners event = [] → triggerEvent c event S = ([], true)) := by
  have hadd : (addListener c event f).listeners event = c.listeners event ++ [f] := by
    simp [addListener]
  refine ⟨?_, ?_, ?_, ?_⟩
  · unfold triggerEvent
    rw [hadd, mapInvoke_append _ _ _ hbehaved]
    rw [List.count_append, mapInvoke_singleton,
      count_pair_map_zero _ _ _ hfresh]
    simp
  · have hrem : (removeListener (addListener c event f) event f).listeners event =
        c.listeners event := by
      unfold removeListener
      dsimp only
      rw [if_pos rfl, hadd, List.filter_append]
      have h1 : (c.listeners event).filter (fun item => item != f) = c.listeners event :=
        List.filter_eq_self.mpr fun x hx => by
          have hne : x ≠ f := fun hxe => hfresh x hx (congrArg Listener.id hxe)
          simpa [bne_iff_ne] using hne
      have h2 : ([f].filter fun item => item != f) = [] := by simp
      rw [h1, h2, List.append_nil]
    unfold triggerEvent
    rw [hrem, mapInvoke_no_throw _ _ hbehaved, count_pair_map_zero _ _ _ hfresh]
  · intro g hg e
    unfold removeListener
    dsimp only
    by_cases he : e = event
    · subst he
      rw [if_pos rfl]
      apply List.filter_eq_self.mpr
      intro x hx
      simpa [bne_iff_ne] using hg x hx
    · rw [if_neg he]
  · intro h
    unfold triggerEvent
    rw [h]
    rfl

/-- C7 (witness): registering a listener on the empty registry and firing
invokes it once; after removal a fire invokes it zero times; removing a
never-registered listener leaves the registry unchanged; firing with no
listeners performs no invocation and completes. -/
theorem c7_witness :
    ((triggerEvent (addListener emptyConn EventName.state_update c7Listener)
      EventName.state_update (3 : ℕ)).1.count (c7Listener.id, 3) = 1) ∧
    ((triggerEvent (removeListener (addListener emptyConn EventName.state_update c7Listener)
      EventName.state_update c7Listener) EventName.state_update (3 : ℕ)).1.count
      (c7Listener.id, 3) = 0) ∧
    ((removeListener emptyConn EventName.state_update c7Listener).listeners
      EventName.state_update = emptyConn.listeners EventName.state_update) ∧
    triggerEvent emptyConn EventName.state_update (3 : ℕ) = ([], true) := by
  have h := c7_theorem emptyConn EventName.state_update c7Listener (3 : ℕ)
    (by intro x hx; simp [emptyConn] at hx) (by intro x hx; simp [emptyConn] at hx)
  exact ⟨h.1, h.2.1,
    h.2.2.1 c7Listener (by intro x hx; simp [emptyConn] at hx) EventName.state_update,
    h.2.2.2 rfl⟩

/-! C8: snapshot assembly. The constructor performs no validation: the
fields it copies without conversion are stored as-is (undefined when
absent), and the only failures are untyped runtime throws from the
conversion helpers, not a typed malformed-snapshot condition. -/

/-- C8 (counterexample): a payload lacking the required id field is
assembled without any failure; the missing id is silently stored as
undefined — refuting that assembly fails whenever a required field is
absent. -/
theorem c8_counterexample :
    Timer.construct c8RawNoId = Except.ok c8Assembled ∧ c8Assembled.id = none := by
  constructor
  · simp only [Timer.construct, c8RawNoId, c8Assembled, loadOptionalDateTimeJs,
      constructOptSide]
    norm_num [StageSettings.load, loadDuration]
  · rfl

/-- C8 (amended): assembly copies id, turn_number, has_ended, end_reporter,
observers and managed unvalidated into the result (so an absent one is
silently stored as undefined and never causes a failure), and for a payload
with null timestamps and no sides the only failure is the untyped TypeError
raised when the settings array is absent. -/
theorem c8_theorem :
    (∀ (raw : RawTimer) (t : AssembledTimer), Timer.construct raw = Except.ok t →
      t.id = raw.id ∧ t.turnNumber = raw.turn_number ∧ t.hasEnded = raw.has_ended ∧
      t.endReporter = raw.end_reporter ∧ t.observers = raw.observers ∧
      t.managed = raw.managed) ∧
    (∀ raw : RawTimer, raw.settings = none → raw.turn_started_at = some none →
      raw.started_at = some none → raw.home = none → raw.away = none →
      Timer.construct raw = Except.error JsError.typeError) := by
  constructor
  · intro raw t h
    unfold Timer.construct at h
    cases h1 : loadOptionalDateTimeJs raw.turn_started_at with
    | error e => rw [h1] at h; simp at h
    | ok turnStartedAt =>
      rw [h1] at h
      cases h2 : loadOptionalDateTimeJs raw.started_at with
      | error e => rw [h2] at h; simp at h
      | ok startedAt =>
        rw [h2] at h
        cases h3 : constructOptSide raw.home with
        | error e => rw [h3] at h; simp at h
        | ok home =>
          rw [h3] at h
          cases h4 : constructOptSide raw.away with
          | error e => rw [h4] at h; simp at h
          | ok away =>
            rw [h4] at h
            cases h5 : raw.settings with
            | none => rw [h5] at h; simp at h
            | some rawSettings =>
              rw [h5] at h
              simp only [Except.ok.injEq] at h
              rw [← h]
              exact ⟨rfl, rfl, rfl, rfl, rfl, rfl⟩
  · intro raw hset hts hsa hh ha
    unfold Timer.construct
    rw [hts, hsa, hh, ha, hset]
    rfl

/-- C8 (witness): the amended theorem applied to the id-less payload, whose
assembly succeeds and propagates the absent id, and to a payload with an
absent settings array, whose assembly raises the TypeError. -/
theorem c8_witness :
    c8Assembled.id = c8RawNoId.id ∧
    Timer.construct c8RawNoSettings = Except.error JsError.typeError := by
  have h1 := (c8_theorem.1 c8RawNoId c8Assembled (by
    simp only [Timer.construct, c8RawNoId, c8Assembled, loadOptionalDateTimeJs,
      constructOptSide]
    norm_num [StageSettings.load, loadDuration])).1
  have h2 := c8_theorem.2 c8RawNoSettings rfl rfl rfl rfl rfl
  exact ⟨h1, h2⟩

/-- C9: the error delivered to listeners keeps the detail verbatim but not
the code — the handler drops the payload code, so a server rejection with
code 403 is delivered with the default 400, diverging from the specified
behaviour of carrying the server code verbatim. -/
theorem c9_theorem :
    onError c9Raw = ⟨"forbidden", 400⟩ ∧
    specDeliveredError c9Raw = ⟨"forbidden", 403⟩ ∧
    onError c9Raw ≠ specDeliveredError c9Raw := by
  refine ⟨rfl, rfl, ?_⟩
  intro h
  have := congrArg ApiError.code h
  simp only [onError, specDeliveredError, mkApiError, c9Raw, Option.getD,
    apiErrorDefaultCode] at this
  norm_num at this

/-! C10: the serialization round trip under binary64 arithmetic. Dump
divides each millisecond count by 1000 and load multiplies the seconds by
1000; both operations round, and the composition is not the identity on
every exact-millisecond duration. -/

/-- C10 (counterexample): the stage with a 1001 ms duration — exact in
milliseconds — does not survive load after dump: the duration re-parses to
8804889115230207 / 8796093022208 ms, slightly below 1001. -/
theorem c10_counterexample :
    StageSettings.loadF (StageSettings.dumpF c10Stage) ≠ c10Stage ∧
    (StageSettings.loadF (StageSettings.dumpF c10Stage)).fixedTimePerTurn =
      8804889115230207 / 8796093022208 := by
  have hval : (StageSettings.loadF (StageSettings.dumpF c10Stage)).fixedTimePerTurn =
      8804889115230207 / 8796093022208 := by
    show jsMul (jsDiv (1001 : ℚ) 1000) 1000 = 8804889115230207 / 8796093022208
    rw [jsDiv_1001, jsMul_1001]
  refine ⟨?_, hval⟩
  intro h
  have hfix := congrArg StageSettings.fixedTimePerTurn h
  rw [hval] at hfix
  have : c10Stage.fixedTimePerTurn = (1001 : ℚ) := rfl
  rw [this] at hfix
  norm_num at hfix

/-- C10 (amended): the round trip restores startTurn always, and restores a
stage exactly when each of its three durations is a fixed point of the
binary64 divide-by-1000-then-multiply-by-1000 composition — which holds for
whole-second durations but fails for general exact-millisecond ones. -/
theorem c10_theorem (s : StageSettings)
    (h1 : jsMul (jsDiv s.fixedTimePerTurn 1000) 1000 = s.fixedTimePerTurn)
    (h2 : jsMul (jsDiv s.incrementPerTurn 1000) 1000 = s.incrementPerTurn)
    (h3 : jsMul (jsDiv s.initialTime 1000) 1000 = s.initialTime) :
    StageSettings.loadF (StageSettings.dumpF s) = s := by
  unfold StageSettings.loadF StageSettings.dumpF loadDurationF
  dsimp only
  rw [h1, h2, h3]

/-- C10 (witness): the demo stage (0 ms, 30000 ms, 300000 ms — all whole
seconds) survives the round trip. -/
theorem c10_witness : StageSettings.loadF (StageSettings.dumpF demoStage) = demoStage := by
  refine c10_theorem demoStage ?_ ?_ ?_
  · show jsMul (jsDiv (0 : ℚ) 1000) 1000 = (0 : ℚ)
    rw [jsDiv_zero, jsMul_zero]
  · show jsMul (jsDiv (30000 : ℚ) 1000) 1000 = (30000 : ℚ)
    rw [jsDiv_30000, jsMul_30]
  · show jsMul (jsDiv (300000 : ℚ) 1000) 1000 = (300000 : ℚ)
    rw [jsDiv_300000, jsMul_300]

end Blitztime
